import Mathlib

/-!
Shallow embedding of the runtime composition engine of the cynic GraphQL
client (crate root `src/cynic/src/lib.rs` and the derive helper
`src/cynic-codegen/src/fragment_arguments_derive/mod.rs`), together with the
parts of the engine the crate root re-exports from modules whose sources are
not available here; those parts are modelled from the specification and are
marked as such in their doc comments.  Type locks, which Rust checks with its
static type system, are modelled as runtime tags checked at construction
time, the substitution the specification itself sanctions in its design
notes.
-/

namespace Cynic

/-- Runtime tag standing for a schema type; stands in for the static
TypeLock marker types of the Rust source. -/
abbrev TypeTag := String

/-- Generic JSON-like wire value: the tree-shaped payload the transport
layer hands to the engine after parsing raw bytes. -/
inductive JsonValue where
  | null : JsonValue
  | boolean : Bool → JsonValue
  | number : Int → JsonValue
  | str : String → JsonValue
  | arr : List JsonValue → JsonValue
  | obj : List (String × JsonValue) → JsonValue

/-- Structured decode errors: shape mismatch, missing required field,
unmatched polymorphic discriminator or enum variant, custom message. -/
inductive DecodeError where
  | shapeMismatch : String → DecodeError
  | missingField : String → DecodeError
  | unknownVariant : String → DecodeError
  | custom : String → DecodeError
deriving DecidableEq, Repr

/-- Construction-time errors: type-tag mismatch when nesting selections, or
duplicate type-names in a polymorphic selection. -/
inductive ConstructionError where
  | typeTagMismatch : TypeTag → TypeTag → ConstructionError
  | duplicateTypeNames : String → ConstructionError
deriving DecidableEq, Repr

/-- A named, already-serialized argument value attached to a field request. -/
structure Argument where
  name : String
  value : JsonValue

/-- A field request: a leaf field, or a composite field with a child field
list coming from an attached child selection. -/
inductive Field where
  | leaf : String → List Argument → Field
  | composite : String → List Argument → List Field → Field

/-- A selection set: the runtime tag of the schema type it is valid
against, its ordered list of requested fields, and the decoder for the
matching region of a response value.  Mirrors
SelectionSet from the selection_set module re-exported by the crate root. -/
structure SelectionSet (T : Type) where
  tag : TypeTag
  fields : List Field
  decode : JsonValue → Except DecodeError T

/-- Modelled from the spec: the field combinator of the selection_set
module (whose source is not available) that installs a child selection
under a field.  Per the spec this is only legal when the declared return
type of the field equals the tag of the child selection, and a violation is
a fail-fast construction error, never deferred to decode time. -/
def attachField {T : Type} (fieldName : String) (args : List Argument)
    (declaredTag : TypeTag) (child : SelectionSet T) :
    Except ConstructionError Field :=
  if child.tag = declaredTag then
    Except.ok (Field.composite fieldName args child.fields)
  else
    Except.error (ConstructionError.typeTagMismatch declaredTag child.tag)

/-- The InlineFragments trait of the crate root.  In Rust, `fragments`
returns `Vec<(String, SelectionSet<Self, Self::TypeLock>)>`: the element
type forces every variant selection to carry the TypeLock of the
implementing type; the field `fragmentsTagEq` records exactly that typing
constraint of the source signature in the runtime-tag model. -/
structure InlineFragments (T : Type) (Args : Type) where
  typeLock : TypeTag
  graphql_type : String
  fragments : Args → List (String × SelectionSet T)
  fragmentsTagEq : ∀ (a : Args) (p : String × SelectionSet T),
    p ∈ fragments a → p.2.tag = typeLock

/-- First type-name appearing more than once in a variant list, if any. -/
def duplicateName {T : Type} : List (String × SelectionSet T) → Option String
  | [] => none
  | (n, _) :: rest =>
    if n ∈ rest.map Prod.fst then some n else duplicateName rest

/-- Reserved discriminator field of a response object. -/
def readTypename : JsonValue → Option String
  | JsonValue.obj entries =>
    match entries.find? (fun p => p.1 == "__typename") with
    | some (_, JsonValue.str s) => some s
    | _ => none
  | _ => none

/-- Modelled from the spec: polymorphic dispatch reads the discriminator
field, looks up the matching variant and delegates to its decoder; a
missing or unregistered discriminator is a decode error naming the
offending value. -/
def dispatchDecode {T : Type} (variants : List (String × SelectionSet T))
    (j : JsonValue) : Except DecodeError T :=
  match readTypename j with
  | none => Except.error (DecodeError.missingField "__typename")
  | some tn =>
    match variants.find? (fun p => p.1 == tn) with
    | none => Except.error (DecodeError.unknownVariant tn)
    | some p => p.2.decode j

/-- A built polymorphic selection: the ordered variant list it was built
from, and the dispatching decoder. -/
structure PolymorphicSelection (T : Type) where
  variants : List (String × SelectionSet T)
  decode : JsonValue → Except DecodeError T

/-- Modelled from the spec: the inline_fragments constructor of the
selection_set module (whose source is not available).  Construction rejects
duplicate type-names with a fail-fast construction error and otherwise
stores the variant list exactly as given. -/
def inline_fragments {T : Type} (variants : List (String × SelectionSet T)) :
    Except ConstructionError (PolymorphicSelection T) :=
  match duplicateName variants with
  | some n => Except.error (ConstructionError.duplicateTypeNames n)
  | none => Except.ok { variants := variants, decode := dispatchDecode variants }

/-- What a QueryFragment implementation provides: the fragment builder and
the graphql_type name. -/
structure QueryFragmentImpl (T : Type) (Args : Type) where
  fragment : Args → Except ConstructionError (PolymorphicSelection T)
  graphql_type : String

/-- The blanket `impl QueryFragment for T where T: InlineFragments` of the
crate root: `fragment(arguments)` is
`selection_set::inline_fragments(Self::fragments(arguments))` and
`graphql_type()` forwards to the InlineFragments implementation. -/
def blanketQueryFragment {T Args : Type} (inst : InlineFragments T Args) :
    QueryFragmentImpl T Args :=
  { fragment := fun arguments => inline_fragments (inst.fragments arguments)
    graphql_type := inst.graphql_type }

/-- A server-reported error of the response envelope. -/
structure GraphQLError where
  message : String
  path : Option (List String)
deriving DecidableEq, Repr

/-- Modelled from the spec: the parsed response envelope of the result
module (whose source is not available): an optional data payload and the
list of server-reported errors (absent list modelled as empty). -/
structure GraphQLResponse where
  data : Option JsonValue
  errors : List GraphQLError

/-- Modelled from the spec: the decode outcome of the result module (whose
source is not available): full success, partial success with
server-reported errors, full failure, and a decode failure kept distinct
from (not merged with) the server-reported errors. -/
inductive GraphQLResult (T : Type) where
  | success : T → GraphQLResult T
  | partialSuccess : T → List GraphQLError → GraphQLResult T
  | failure : List GraphQLError → GraphQLResult T
  | decodeFailed : DecodeError → List GraphQLError → GraphQLResult T

/-- A built query: wraps one root selection. -/
structure Query (T : Type) where
  selection : SelectionSet T

/-- Modelled from the spec: response decoding of the query module (whose
source is not available).  Absent data yields Failure with the
server-reported errors; present data is decoded by the root selection,
yielding Success when the error list is empty, PartialSuccess otherwise,
and a distinct decode failure (surfacing the server errors alongside, not
merged) when the root decoder fails. -/
def decode_response {T : Type} (q : Query T) (resp : GraphQLResponse) :
    GraphQLResult T :=
  match resp.data with
  | none => GraphQLResult.failure resp.errors
  | some d =>
    match q.selection.decode d with
    | Except.ok v =>
      if resp.errors.isEmpty then GraphQLResult.success v
      else GraphQLResult.partialSuccess v resp.errors
    | Except.error e => GraphQLResult.decodeFailed e resp.errors

/-- The Clone bound of the Rust standard library, shallowly: evidence that
a value of the type can be duplicated. -/
structure Clone (α : Type) where
  clone : α → α

/-- The FragmentArguments marker trait of the crate root:
`trait FragmentArguments: Clone` — holding an implementation requires
holding a Clone implementation. -/
structure FragmentArguments (α : Type) where
  toClone : Clone α

/-- The `impl FragmentArguments for ()` of the crate root. -/
def unitFragmentArguments : FragmentArguments Unit :=
  { toClone := { clone := fun u => u } }

/-- A read-only reference, shallowly: a view of the referenced value. -/
def Ref (α : Type) : Type := α

/-- The `impl<T> FragmentArguments for &T where T: FragmentArguments` of
the crate root; references are themselves trivially cloneable. -/
def refFragmentArguments {α : Type} (_ : FragmentArguments α) :
    FragmentArguments (Ref α) :=
  { toClone := { clone := fun r => r } }

/-- The `from_arguments` body of the `SubArguments<'a, ()>` implementation
emitted by fragment_arguments_derive: it ignores the receiver and returns
the unit value. -/
def derivedFromArgumentsUnit {α : Type} (_ : α) : Unit := ()

/-- Modelled from the spec: the enum decoder behind `Enum::select` (the
generated implementations are not available): a wire string decodes to the
declared variant whose name matches it exactly, and an unmatched name
fails with an unknown-variant error. -/
def enumDecodeName (variants : List String) (wire : String) :
    Except DecodeError String :=
  if wire ∈ variants then Except.ok wire
  else Except.error (DecodeError.unknownVariant wire)

/-- Modelled from the spec: the selection exposed by `Enum::select` for an
enum with the given declared variant names; its decoder reads a wire string
and applies the exact-name-match rule. -/
def enumSelect (variants : List String) : SelectionSet String :=
  { tag := "()"
    fields := []
    decode := fun j =>
      match j with
      | JsonValue.str s => enumDecodeName variants s
      | _ => Except.error (DecodeError.shapeMismatch "expected enum string") }

/-- Serialization errors of input objects (`Box<dyn Error>` in the source,
modelled as a message). -/
abbrev SerializeErrorMsg := String

/-- Modelled from the spec: a structured domain value implementing
InputObject: its domain fields with their already-encoded values, and the
mapping from domain field names to schema input-object field names. -/
structure InputObjectValue where
  domainFields : List (String × JsonValue)
  schemaFieldName : String → String

/-- Modelled from the spec: `InputObject::serialize` produces a wire object
whose entries map the domain fields to the schema field names. -/
def InputObjectValue.serialize (io : InputObjectValue) :
    Except SerializeErrorMsg JsonValue :=
  Except.ok (JsonValue.obj
    (io.domainFields.map (fun p => (io.schemaFieldName p.1, p.2))))

/-- The parts of a syn::DeriveInput the derive could in principle look at:
the identifier, and the generic parameters, fields and attributes of the
item. -/
structure DeriveInput where
  ident : String
  generics : List String
  fields : List (String × String)
  attrs : List String
deriving DecidableEq, Repr

/-- A macro-expansion error (syn::Error), modelled as its message. -/
structure SynError where
  message : String
deriving DecidableEq, Repr

/-- The token stream fragment_arguments_derive emits, structurally: the
quote produces three impls, each parameterised only by the identifier it
is for. -/
structure DerivedTokens where
  asRefUnitImplFor : String
  fragmentArgumentsImplFor : String
  subArgumentsUnitImplFor : String
deriving DecidableEq, Repr

/-- fragment_arguments_derive from
src/cynic-codegen/src/fragment_arguments_derive/mod.rs: reads only the
identifier of its input and unconditionally returns Ok of the three
generated impls. -/
def fragment_arguments_derive (ast : DeriveInput) :
    Except SynError DerivedTokens :=
  Except.ok
    { asRefUnitImplFor := ast.ident
      fragmentArgumentsImplFor := ast.ident
      subArgumentsUnitImplFor := ast.ident }

/-! Sample values used by the concrete witnesses below. -/

/-- A sample child selection against schema type Film. -/
def filmChildSel : SelectionSet String :=
  { tag := "Film"
    fields := [Field.leaf "title" []]
    decode := fun _ => Except.ok "film" }

/-- A sample variant selection for the Human arm of a Character union;
per the source signature it carries the TypeLock of the union type. -/
def humanVariantSel : SelectionSet String :=
  { tag := "Character"
    fields := [Field.leaf "name" []]
    decode := fun _ => Except.ok "human" }

/-- A sample variant selection for the Droid arm of a Character union. -/
def droidVariantSel : SelectionSet String :=
  { tag := "Character"
    fields := [Field.leaf "primaryFunction" []]
    decode := fun _ => Except.ok "droid" }

/-- A sample InlineFragments implementation over a Character union with
Human and Droid variants and no arguments. -/
def characterInline : InlineFragments String Unit :=
  { typeLock := "Character"
    graphql_type := "Character"
    fragments := fun _ => [("Human", humanVariantSel), ("Droid", droidVariantSel)]
    fragmentsTagEq := by
      intro a p hp
      simp only [List.mem_cons, List.not_mem_nil, or_false] at hp
      rcases hp with rfl | rfl <;> rfl }

/-- The polymorphic selection built from the sample variant list. -/
def characterPoly : PolymorphicSelection String :=
  { variants := characterInline.fragments ()
    decode := dispatchDecode (characterInline.fragments ()) }

/-- A variant list with a duplicated type-name. -/
def dupVariants : List (String × SelectionSet String) :=
  [("Human", humanVariantSel), ("Human", droidVariantSel)]

/-- A sample query whose root decoder expects a wire string. -/
def stringQuery : Query String :=
  { selection :=
    { tag := "Root"
      fields := [Field.leaf "title" []]
      decode := fun j =>
        match j with
        | JsonValue.str s => Except.ok s
        | _ => Except.error (DecodeError.shapeMismatch "expected string") } }

/-- A sample failure response: no data, one server-reported error. -/
def notFoundResp : GraphQLResponse :=
  { data := none
    errors := [{ message := "not found", path := none }] }

/-- A sample partial-success response: string data, one server error. -/
def minorIssueResp : GraphQLResponse :=
  { data := some (JsonValue.str "X")
    errors := [{ message := "minor issue", path := none }] }

/-! Theorems. -/

/-- A variant list whose duplicateName check comes back empty has pairwise
distinct type-names. -/
theorem nodup_of_duplicateName_eq_none {T : Type} :
    ∀ (vs : List (String × SelectionSet T)), duplicateName vs = none →
      (vs.map Prod.fst).Nodup := by
  intro vs
  induction vs with
  | nil => intro _; simp
  | cons p rest ih =>
    intro h
    obtain ⟨n, s⟩ := p
    rw [duplicateName] at h
    split at h
    · exact absurd h (by simp)
    · rename_i hmem
      simp only [List.map_cons, List.nodup_cons]
      exact ⟨hmem, ih h⟩

/-- C1: attaching a selection tagged with type A as the child of a field
whose declared return type is B succeeds exactly when A = B (a mismatch is
a construction-time error), and every variant selection returned by an
InlineFragments implementation carries the same TypeLock as the
implementing type. -/
theorem C1_type_tag_safety :
    (∀ (T : Type) (fieldName : String) (args : List Argument)
        (A B : TypeTag) (child : SelectionSet T), child.tag = A →
        ((attachField fieldName args B child).isOk = true ↔ A = B)) ∧
    (∀ (T Args : Type) (inst : InlineFragments T Args) (a : Args)
        (p : String × SelectionSet T), p ∈ inst.fragments a →
        p.2.tag = inst.typeLock) := by
  constructor
  · intro T fieldName args A B child hA
    subst hA
    unfold attachField
    by_cases h : child.tag = B
    · simp [h, Except.isOk, Except.toBool]
    · simp [h, Except.isOk, Except.toBool]
  · intro T Args inst a p hp
    exact inst.fragmentsTagEq a p hp

/-- Concrete check of C1: attaching a Film-tagged child under a field
declared to return Film succeeds; under a field declared to return Planet
it is a construction error. -/
theorem C1_witness :
    (attachField "film" [] "Film" filmChildSel).isOk = true ∧
    (attachField "film" [] "Planet" filmChildSel).isOk = false :=
  ⟨(C1_type_tag_safety.1 String "film" [] "Film" "Film" filmChildSel rfl).mpr rfl,
   rfl⟩

/-- C2: decoding a parsed response envelope yields Failure with the server
errors when data is absent and errors non-empty; Success when data is
present, the root decoder succeeds and errors is empty; PartialSuccess
with the errors when data is present, the root decoder succeeds and errors
is non-empty; and a distinct decode failure, never a plain Failure, when
data is present but the root decoder fails. -/
theorem C2_decode_outcomes {T : Type} (q : Query T) (resp : GraphQLResponse) :
    (resp.data = none → resp.errors ≠ [] →
      decode_response q resp = GraphQLResult.failure resp.errors) ∧
    (∀ d v, resp.data = some d → q.selection.decode d = Except.ok v →
      (resp.errors = [] → decode_response q resp = GraphQLResult.success v) ∧
      (resp.errors ≠ [] →
        decode_response q resp = GraphQLResult.partialSuccess v resp.errors)) ∧
    (∀ d e, resp.data = some d → q.selection.decode d = Except.error e →
      decode_response q resp = GraphQLResult.decodeFailed e resp.errors ∧
      ∀ es, decode_response q resp ≠ GraphQLResult.failure es) := by
  refine ⟨?_, ?_, ?_⟩
  · intro hd _
    simp [decode_response, hd]
  · intro d v hd hv
    constructor
    · intro he
      simp [decode_response, hd, hv, he]
    · intro he
      simp [decode_response, hd, hv, he]
  · intro d e hd he
    constructor
    · simp [decode_response, hd, he]
    · intro es
      simp [decode_response, hd, he]

/-- Concrete check of C2: a dataless response with one error decodes to
Failure, and string data alongside one error decodes to PartialSuccess. -/
theorem C2_witness :
    decode_response stringQuery notFoundResp =
      GraphQLResult.failure [{ message := "not found", path := none }] ∧
    decode_response stringQuery minorIssueResp =
      GraphQLResult.partialSuccess "X"
        [{ message := "minor issue", path := none }] := by
  constructor
  · exact (C2_decode_outcomes stringQuery notFoundResp).1 rfl
      (by simp [notFoundResp])
  · exact ((C2_decode_outcomes stringQuery minorIssueResp).2.1
      (JsonValue.str "X") "X" rfl rfl).2 (by simp [minorIssueResp])

/-- C3: the blanket QueryFragment implementation builds its fragment as
inline_fragments applied to exactly the list InlineFragments::fragments
returns (the built polymorphic selection stores that list unchanged), and
its graphql_type is the InlineFragments graphql_type. -/
theorem C3_blanket_fragment {T Args : Type} (inst : InlineFragments T Args)
    (args : Args) :
    (blanketQueryFragment inst).fragment args =
      inline_fragments (inst.fragments args) ∧
    (∀ ps, inline_fragments (inst.fragments args) = Except.ok ps →
      ps.variants = inst.fragments args) ∧
    (blanketQueryFragment inst).graphql_type = inst.graphql_type := by
  refine ⟨rfl, ?_, rfl⟩
  intro ps hps
  unfold inline_fragments at hps
  split at hps
  · exact absurd hps (by simp)
  · injection hps with h
    rw [← h]

/-- Concrete check of C3: the sample Character union builds its fragment
through inline_fragments and the built selection keeps the variant list. -/
theorem C3_witness :
    (blanketQueryFragment characterInline).fragment () =
      inline_fragments (characterInline.fragments ()) ∧
    characterPoly.variants = characterInline.fragments () := by
  have h := C3_blanket_fragment characterInline ()
  exact ⟨h.1, h.2.1 characterPoly rfl⟩

/-- C4: a variant list containing two entries with the same type-name is
rejected at construction with a duplicate-type-names error; it never
silently yields a built polymorphic selection. -/
theorem C4_duplicate_type_names_rejected {T : Type}
    (variants : List (String × SelectionSet T))
    (h : ¬ (variants.map Prod.fst).Nodup) :
    (∃ n, inline_fragments variants =
      Except.error (ConstructionError.duplicateTypeNames n)) ∧
    ∀ ps, inline_fragments variants ≠ Except.ok ps := by
  cases hdup : duplicateName variants with
  | none => exact absurd (nodup_of_duplicateName_eq_none variants hdup) h
  | some n =>
    constructor
    · exact ⟨n, by simp [inline_fragments, hdup]⟩
    · intro ps
      simp [inline_fragments, hdup]

/-- Concrete check of C4: a list naming Human twice is rejected with a
duplicate-type-names construction error. -/
theorem C4_witness :
    inline_fragments dupVariants ≠ Except.ok characterPoly ∧
    inline_fragments dupVariants =
      Except.error (ConstructionError.duplicateTypeNames "Human") := by
  refine ⟨(C4_duplicate_type_names_rejected dupVariants ?_).2 characterPoly, rfl⟩
  simp [dupVariants]

/-- C5: the unit type satisfies FragmentArguments, and the derive-generated
projection to the unit argument type is total and always returns the unit
value, for every receiver type. -/
theorem C5_unit_arguments :
    Nonempty (FragmentArguments Unit) ∧
    ∀ (α : Type) (x : α), derivedFromArgumentsUnit x = () :=
  ⟨⟨unitFragmentArguments⟩, fun _ _ => rfl⟩

/-- C6: every FragmentArguments type is cloneable (the marker trait
carries a Clone bound) and its read-only reference type is itself a
FragmentArguments type. -/
theorem C6_arguments_clonable_and_ref (α : Type)
    (h : Nonempty (FragmentArguments α)) :
    Nonempty (Clone α) ∧ Nonempty (FragmentArguments (Ref α)) := by
  obtain ⟨inst⟩ := h
  exact ⟨⟨inst.toClone⟩, ⟨refFragmentArguments inst⟩⟩

/-- Concrete check of C6 at the unit argument type. -/
theorem C6_witness :
    Nonempty (Clone Unit) ∧ Nonempty (FragmentArguments (Ref Unit)) :=
  C6_arguments_clonable_and_ref Unit ⟨unitFragmentArguments⟩

/-- C7: the enum selection decodes a wire string to the declared variant
whose name matches it exactly, and fails with an unknown-variant error on
every wire string matching no declared variant. -/
theorem C7_enum_decode (variants : List String) (wire : String) :
    (wire ∈ variants →
      (enumSelect variants).decode (JsonValue.str wire) = Except.ok wire) ∧
    (wire ∉ variants →
      (enumSelect variants).decode (JsonValue.str wire) =
        Except.error (DecodeError.unknownVariant wire)) := by
  constructor
  · intro h
    simp [enumSelect, enumDecodeName, h]
  · intro h
    simp [enumSelect, enumDecodeName, h]

/-- Concrete check of C7 with declared variants JEDI and SITH: JEDI
decodes to the JEDI variant and GREY fails with unknown-variant. -/
theorem C7_witness :
    (enumSelect ["JEDI", "SITH"]).decode (JsonValue.str "JEDI") =
      Except.ok "JEDI" ∧
    (enumSelect ["JEDI", "SITH"]).decode (JsonValue.str "GREY") =
      Except.error (DecodeError.unknownVariant "GREY") :=
  ⟨(C7_enum_decode ["JEDI", "SITH"] "JEDI").1 (by decide),
   (C7_enum_decode ["JEDI", "SITH"] "GREY").2 (by decide)⟩

/-- C8: serializing an input-object value always yields an object-shaped
wire value whose entries map the domain fields to the schema field names;
it is never a failure. -/
theorem C8_input_object_serialize (io : InputObjectValue) :
    io.serialize = Except.ok (JsonValue.obj
      (io.domainFields.map (fun p => (io.schemaFieldName p.1, p.2)))) ∧
    ∀ e, io.serialize ≠ Except.error e :=
  ⟨rfl, fun _ h => Except.noConfusion h⟩

/-- C9: the output of fragment_arguments_derive depends only on the
identifier of its input; two inputs with equal ident produce identical
token streams, whatever their fields, generics or attributes. -/
theorem C9_derive_depends_only_on_ident (a b : DeriveInput)
    (h : a.ident = b.ident) :
    fragment_arguments_derive a = fragment_arguments_derive b := by
  unfold fragment_arguments_derive
  rw [h]

/-- Concrete check of C9: two derive inputs sharing the ident but
differing in generics, fields and attributes produce the same output. -/
theorem C9_witness :
    fragment_arguments_derive
      { ident := "FilmArguments", generics := [],
        fields := [("id", "Id")], attrs := [] } =
    fragment_arguments_derive
      { ident := "FilmArguments", generics := ["T"],
        fields := [], attrs := ["cynic"] } :=
  C9_derive_depends_only_on_ident _ _ rfl

/-- C10: fragment_arguments_derive returns Ok on every input; the error
branch of its result type is unreachable. -/
theorem C10_derive_never_fails (ast : DeriveInput) :
    (∃ ts, fragment_arguments_derive ast = Except.ok ts) ∧
    ∀ e, fragment_arguments_derive ast ≠ Except.error e :=
  ⟨⟨_, rfl⟩, fun _ h => Except.noConfusion h⟩

end Cynic
